import Mathlib

/-
Verification of the support-dashboard API facade: a shallow embedding of the
core functions of src/api/function_app.py and src/api/utils/auth.py, with
theorems settling the behavioural claims about them.  External collaborators
(the HTTP transport, the JWT library, bcrypt, the system clock) are modelled
as explicit function parameters; Python dictionaries appear as association
lists, Python exceptions as an Except monad.
-/

namespace ArmsDashboard

/-- Python runtime exceptions that the embedded code paths can raise:
TypeError, ValueError, and requests.exceptions.RequestException. -/
inductive PyErr where
  | typeError
  | valueError
  | requestException
deriving DecidableEq, Repr

-- ===========================================================================
-- Custom-field lookup (function_app.py, get_custom_field_value)
-- ===========================================================================

/-- Python str.isdigit: true when the string is non-empty and every character
is a digit. -/
def pyIsDigit (s : String) : Bool :=
  !s.isEmpty && s.data.all Char.isDigit

/-- Python str.startswith, expressed over the character lists of the two
strings. -/
def pyStartsWith (s fp : String) : Bool :=
  fp.data.isPrefixOf s.data

/-- get_custom_field_value from function_app.py: on an empty field map return
None; otherwise an exact key match wins; otherwise scan the map in insertion
order for the first key that starts with the requested name and whose
remaining suffix is empty or purely numeric.  The binder fp stands for the
field name argument of the Python function. -/
def get_custom_field_value (custom_fields : List (String × α)) (fp : String) : Option α :=
  if custom_fields.isEmpty then none
  else
    match List.lookup fp custom_fields with
    | some v => some v
    | none =>
      (custom_fields.find? (fun kv =>
        pyStartsWith kv.1 fp &&
          (let suffix := kv.1.drop fp.length
           suffix.isEmpty || pyIsDigit suffix))).map Prod.snd

-- ===========================================================================
-- Response-time statistics of the summary endpoint (function_app.py 1060-1068)
-- ===========================================================================

/-- Average and median of the collected first-response times, as computed by
the summary endpoint; both are None when the list is empty.  Times are
modelled as rationals, matching the exact arithmetic the claim is about. -/
def summary_response_stats (response_times : List ℚ) : Option ℚ × Option ℚ :=
  if response_times.isEmpty then (none, none)
  else
    let avg := response_times.sum / (response_times.length : ℚ)
    let sorted_times := response_times.insertionSort (· ≤ ·)
    let mid := sorted_times.length / 2
    let med :=
      if sorted_times.length % 2 ≠ 0 then sorted_times.getD mid 0
      else (sorted_times.getD (mid - 1) 0 + sorted_times.getD mid 0) / 2
    (some avg, some med)

/-- The median component of the summary statistics. -/
def summary_median (response_times : List ℚ) : Option ℚ :=
  (summary_response_stats response_times).2

-- ===========================================================================
-- Pagination fetcher (function_app.py, fetch_all_pages_from_freshdesk)
-- ===========================================================================

/-- Outcome of one page request against the upstream transport: a raised
requests exception (timeout, connection failure, or a non-2xx status via
raise_for_status), or a parsed JSON body together with whether the Link
response header contains a rel=next entry. -/
inductive PageResp (α : Type) where
  | exn
  | ok (data : List α) (hasNext : Bool)
deriving DecidableEq, Repr

/-- Python dict update on a string-keyed parameter map: remove any existing
binding of the key, bind it to the new value. -/
def dictSet (l : List (String × String)) (k v : String) : List (String × String) :=
  l.filter (fun kv => kv.1 ≠ k) ++ [(k, v)]

/-- The query parameters sent for one page: the caller's params extended with
the page number and per_page fixed at 100. -/
def page_params (params : List (String × String)) (page : Nat) : List (String × String) :=
  dictSet (dictSet params "page" (toString page)) "per_page" "100"

/-- Has the max_pages cap been exceeded?  A cap of none means unlimited. -/
def capReached (max_pages : Option Nat) (page : Nat) : Bool :=
  match max_pages with
  | none => false
  | some m => page > m

/-- Loop of fetch_all_pages_from_freshdesk, with explicit fuel standing in for
the unbounded while loop.  Returns the accumulated tickets together with the
trace of parameter maps of the page requests actually issued.  Stop
conditions, in source order: the page cap, a raised request exception, an
empty page body, a Link header without a rel=next entry. -/
def fetchPagesAux (http : List (String × String) → PageResp α)
    (params : List (String × String)) (max_pages : Option Nat) :
    Nat → Nat → List α → List α × List (List (String × String))
  | 0, _, acc => (acc, [])
  | fuel + 1, page, acc =>
    if capReached max_pages page then (acc, [])
    else
      let req := page_params params page
      match http req with
      | .exn => (acc, [req])
      | .ok data hasNext =>
        if data.isEmpty then (acc, [req])
        else if !hasNext then (acc ++ data, [req])
        else
          let rest := fetchPagesAux http params max_pages fuel (page + 1) (acc ++ data)
          (rest.1, req :: rest.2)

/-- fetch_all_pages_from_freshdesk: run the page loop from page 1 with an
empty accumulator and return the accumulated tickets. -/
def fetch_all_pages_from_freshdesk (http : List (String × String) → PageResp α)
    (params : List (String × String)) (max_pages : Option Nat) (fuel : Nat) : List α :=
  (fetchPagesAux http params max_pages fuel 1 []).1

-- ===========================================================================
-- Token service (utils/auth.py)
-- ===========================================================================

/-- The identity fields of a decoded session-token payload, as consumed by the
endpoint handlers. -/
structure Payload where
  user_id : String
  username : String
  role : String
deriving DecidableEq, Repr

/-- Outcome of jwt.decode from the PyJWT collaborator: a decoded payload, an
ExpiredSignatureError, or an InvalidTokenError (which covers signature and
malformation failures). -/
inductive JwtResult where
  | payload (p : Payload)
  | expired
  | invalid
deriving DecidableEq, Repr

/-- get_jwt_secret from utils/auth.py: reads JWT_SECRET_KEY from the
environment and raises ValueError when it is absent or empty. -/
def get_jwt_secret (env_secret : Option String) : Except PyErr String :=
  match env_secret with
  | none => .error .valueError
  | some s => if s.isEmpty then .error .valueError else .ok s

/-- verify_token from utils/auth.py: decode the token with the configured
secret, mapping ExpiredSignatureError and InvalidTokenError to None.  The
ValueError raised by get_jwt_secret inside the try block matches neither
except clause, so it propagates. -/
def verify_token (decode : String → String → JwtResult) (env_secret : Option String)
    (token : String) : Except PyErr (Option Payload) :=
  match get_jwt_secret env_secret with
  | .error e => .error e
  | .ok secret =>
    match decode token secret with
    | .payload p => .ok (some p)
    | .expired => .ok none
    | .invalid => .ok none

-- ===========================================================================
-- Tickets, the year filter (function_app.py 785-796 and 1021-1032) and the
-- priority buckets of the summary endpoint (function_app.py 1093-1098)
-- ===========================================================================

/-- The two raw upstream ticket fields the year filter and the priority
buckets inspect; either may be missing from the upstream JSON. -/
structure Ticket where
  created_at : Option String := none
  priority : Option Int := none
deriving DecidableEq, Repr, Inhabited

/-- Value of one decimal digit character. -/
def digitVal (c : Char) : Nat := c.toNat - 48

/-- Numeric value of a list of decimal digit characters. -/
def digitsToNat (cs : List Char) : Nat :=
  cs.foldl (fun a c => a * 10 + digitVal c) 0

/-- Modelled contract of datetime.fromisoformat composed with the year
attribute: the string must open with a YYYY-MM-DD date (digits in the right
places, month 1..12, day 1..31), optionally followed by a T-separated time
made of digits, colons, signs and dots; the year digits are returned, and
None models a raised ValueError. -/
def iso_year (s : String) : Option Nat :=
  match s.data with
  | y1 :: y2 :: y3 :: y4 :: '-' :: m1 :: m2 :: '-' :: d1 :: d2 :: rest =>
    if ([y1, y2, y3, y4, m1, m2, d1, d2].all Char.isDigit
        && decide (1 ≤ digitsToNat [m1, m2] ∧ digitsToNat [m1, m2] ≤ 12
                   ∧ 1 ≤ digitsToNat [d1, d2] ∧ digitsToNat [d1, d2] ≤ 31)
        && (match rest with
            | [] => true
            | 'T' :: tcs => tcs.all fun c => c.isDigit || c = ':' || c = '+' || c = '-' || c = '.'
            | _ => false))
    then some (digitsToNat [y1, y2, y3, y4]) else none
  | _ => none

/-- Python str.replace for the single-character pattern Z, substituting the
numeric UTC offset at every occurrence. -/
def replaceZ (s : String) : String :=
  ⟨(s.data.map (fun c => if c = 'Z' then "+00:00".data else [c])).flatten⟩

/-- Year extraction applied to a raw created_at value, after the source's
replacement of Z with a numeric UTC offset. -/
def created_year (created_at : String) : Option Nat :=
  iso_year (replaceZ created_at)

/-- The per-ticket condition of the year-filter comprehension:
the created_at field must be present and truthy, and the parsed creation year
at least 2025.  A ValueError from date parsing escapes the comprehension. -/
def year_keep (t : Ticket) : Except PyErr Bool :=
  match t.created_at with
  | none => .ok false
  | some s =>
    if s.isEmpty then .ok false
    else
      match created_year s with
      | none => .error .valueError
      | some y => .ok (decide (y ≥ 2025))

/-- A Python list comprehension with a possibly-raising condition: elements
are tested left to right and the first exception aborts the whole
comprehension. -/
def pyFilter (cond : α → Except PyErr Bool) : List α → Except PyErr (List α)
  | [] => .ok []
  | x :: xs => do
    let b ← cond x
    let rest ← pyFilter cond xs
    pure (if b then x :: rest else rest)

/-- The year-filter block shared by the tickets and summary endpoints: when
include_2024 is false, keep only tickets whose creation year is at least
2025, but if the comprehension raises, the surrounding try/except leaves the
ticket list unchanged. -/
def apply_year_filter (include_2024 : Bool) (tickets_data : List Ticket) : List Ticket :=
  if include_2024 then tickets_data
  else
    match pyFilter year_keep tickets_data with
    | .ok kept => kept
    | .error _ => tickets_data

/-- Python comparison of t.get with an int: comparing None against an int with
a greater-or-equal operator raises TypeError. -/
def pyGeInt (x : Option Int) (n : Int) : Except PyErr Bool :=
  match x with
  | none => .error .typeError
  | some v => .ok (decide (v ≥ n))

/-- The high-priority bucket of the summary endpoint: the length of the
comprehension keeping tickets whose priority is at least 3. -/
def high_priority_count (tickets_data : List Ticket) : Except PyErr Nat :=
  (pyFilter (fun t => pyGeInt t.priority 3) tickets_data).map List.length

/-- The exception handling wrapped around the summary computation: only
requests.exceptions.RequestException is caught and mapped to a JSON error
body; every other exception propagates out of the handler. -/
def summary_handle (r : Except PyErr α) : Except PyErr (α ⊕ String) :=
  match r with
  | .ok a => .ok (.inl a)
  | .error .requestException => .ok (.inr "Failed to generate summary")
  | .error e => .error e

-- ===========================================================================
-- Credential store (utils/auth.py) and user endpoints (function_app.py)
-- ===========================================================================

/-- A stored user record, as written to the flat users file. -/
structure User where
  id : String
  username : String
  password_hash : String
  full_name : String
  role : String
  created_at : String
  last_login : Option String := none
  must_change_password : Bool := false
deriving DecidableEq, Repr, Inhabited

/-- JSON values appearing in the user projections the store returns. -/
inductive JVal where
  | s (v : String)
  | b (v : Bool)
  | null
deriving DecidableEq, Repr

/-- get_user_by_username: first stored record with the given username, or
None. -/
def get_user_by_username (users : List User) (username : String) : Option User :=
  users.find? (fun u => u.username == username)

/-- get_user_by_id: first stored record with the given id, or None. -/
def get_user_by_id (users : List User) (user_id : String) : Option User :=
  users.find? (fun u => u.id == user_id)

/-- The seven-field dictionary built per user by get_all_users. -/
def user_public_dict (u : User) : List (String × JVal) :=
  [("id", .s u.id), ("username", .s u.username), ("full_name", .s u.full_name),
   ("role", .s u.role), ("created_at", .s u.created_at),
   ("last_login", match u.last_login with | none => .null | some t => .s t),
   ("must_change_password", .b u.must_change_password)]

/-- get_all_users: the public projection of every stored record. -/
def get_all_users (users : List User) : List (List (String × JVal)) :=
  users.map user_public_dict

/-- The five-field dictionary returned by create_user and update_user. -/
def user_created_dict (u : User) : List (String × JVal) :=
  [("id", .s u.id), ("username", .s u.username), ("full_name", .s u.full_name),
   ("role", .s u.role), ("created_at", .s u.created_at)]

/-- The fixed role set. -/
def valid_roles : List String := ["Admin", "Manager", "Viewer"]

/-- Python int applied to a stored id string: the numeric value of a digit
string, None modelling the ValueError on anything else. -/
def pyInt (s : String) : Option Nat :=
  if s.isEmpty || !s.data.all Char.isDigit then none else some (digitsToNat s.data)

/-- create_user from utils/auth.py: validate the role, reject a taken
username, allocate max-numeric-id-plus-one, append the new record (hash
computed by the bcrypt collaborator, must_change_password set), and return
the store together with the five-field projection.  The clock is passed in
as the created_at value. -/
def create_user (hashPw : String → String) (now : String) (users : List User)
    (username password full_name role : String) :
    Except PyErr (List User × List (String × JVal)) :=
  if ¬ role ∈ valid_roles then .error .valueError
  else if (get_user_by_username users username).isSome then .error .valueError
  else
    let max_id := users.foldl
      (fun m u => match pyInt u.id with | some n => if n > m then n else m | none => m) 0
    let new_user : User :=
      { id := toString (max_id + 1), username := username,
        password_hash := hashPw password, full_name := full_name, role := role,
        created_at := now, must_change_password := true, last_login := none }
    .ok (users ++ [new_user], user_created_dict new_user)

/-- The optional fields an update request may carry, mirroring the dict of
collected updates. -/
structure UserUpdates where
  username : Option String := none
  full_name : Option String := none
  role : Option String := none
  password : Option String := none
  must_change_password : Option Bool := none
deriving DecidableEq, Repr

/-- The field mutations of update_user applied to the found record, in source
order; a password update also clears must_change_password, and an explicit
must_change_password entry is applied after that. -/
def apply_user_updates (hashPw : String → String) (u0 : User) (upd : UserUpdates) : User :=
  let u := match upd.username with | some v => { u0 with username := v } | none => u0
  let u := match upd.full_name with | some v => { u with full_name := v } | none => u
  let u := match upd.role with | some v => { u with role := v } | none => u
  let u := match upd.password with
           | some pw => { u with password_hash := hashPw pw, must_change_password := false }
           | none => u
  match upd.must_change_password with
  | some b => { u with must_change_password := b }
  | none => u

/-- update_user from utils/auth.py: locate the record by id (None when
absent, with no write), raise ValueError on an invalid role or a duplicate
username, otherwise apply the updates, save, and return the new store with
the five-field projection. -/
def update_user (hashPw : String → String) (users : List User) (user_id : String)
    (upd : UserUpdates) : Except PyErr (List User × Option (List (String × JVal))) :=
  match users.findIdx? (fun u => u.id == user_id) with
  | none => .ok (users, none)
  | some i =>
    if (match upd.role with
        | some r => !valid_roles.contains r
        | none => false) then
      .error .valueError
    else if (match upd.username with
             | some un => (un != (users.getD i default).username)
                          && (get_user_by_username users un).isSome
             | none => false) then
      .error .valueError
    else
      let u := apply_user_updates hashPw (users.getD i default) upd
      .ok (users.set i u, some (user_created_dict u))

/-- delete_user from utils/auth.py: drop every record with the given id; when
nothing was dropped report False and leave the store unsaved. -/
def delete_user (users : List User) (user_id : String) : Bool × List User :=
  let remaining := users.filter (fun u => u.id != user_id)
  if remaining.length < users.length then (true, remaining) else (false, users)

-- ===========================================================================
-- HTTP handlers of the user endpoints (function_app.py)
-- ===========================================================================

/-- The JSON body of a handler response: an error object or a message
object. -/
inductive RespBody where
  | err (msg : String)
  | message (msg : String)
deriving DecidableEq, Repr

/-- An HTTP response: status code plus JSON body. -/
structure Response where
  status : Nat
  body : RespBody
deriving DecidableEq, Repr

/-- Python truthiness of an optional string: absent and empty are falsy. -/
def pyTruthyStr (s : Option String) : Bool :=
  match s with
  | none => false
  | some v => !v.isEmpty

/-- The parsed JSON body of a change-password request. -/
structure ChangePwBody where
  current_password : Option String := none
  new_password : Option String := none
deriving DecidableEq, Repr

/-- auth_change_password from function_app.py, over the verified token payload
(None models a missing or invalid bearer token), the parsed request body
(None models a get_json failure), and the stored user list.  Returns the
response and the resulting store. -/
def auth_change_password (verifyPw : String → String → Bool) (hashPw : String → String)
    (auth_user : Option Payload) (body : Option ChangePwBody) (users : List User) :
    Response × List User :=
  match auth_user with
  | none => (⟨401, .err "Unauthorized"⟩, users)
  | some payload =>
    match body with
    | none => (⟨400, .err "Invalid request body"⟩, users)
    | some b =>
      if !pyTruthyStr b.current_password || !pyTruthyStr b.new_password then
        (⟨400, .err "Current password and new password are required"⟩, users)
      else
        let newp := b.new_password.getD ""
        if newp.length < 8 then
          (⟨400, .err "New password must be at least 8 characters long"⟩, users)
        else
          match get_user_by_id users payload.user_id with
          | none => (⟨404, .err "User not found"⟩, users)
          | some u =>
            if !verifyPw (b.current_password.getD "") u.password_hash then
              (⟨401, .err "Current password is incorrect"⟩, users)
            else
              match update_user hashPw users u.id { password := some newp } with
              | .ok (users2, _) => (⟨200, .message "Password changed successfully"⟩, users2)
              | .error _ => (⟨400, .err "Invalid request body"⟩, users)

/-- users_delete from function_app.py, over the verified token payload, the
path id and the stored user list: 401 unauthenticated, 403 for a non-Admin
role, 400 for self-deletion, 404 when the id is unknown, 200 with the
filtered store otherwise. -/
def users_delete (auth_user : Option Payload) (user_id : String) (users : List User) :
    Response × List User :=
  match auth_user with
  | none => (⟨401, .err "Unauthorized"⟩, users)
  | some payload =>
    if payload.role != "Admin" then
      (⟨403, .err "Forbidden - Admin access required"⟩, users)
    else if payload.user_id == user_id then
      (⟨400, .err "Cannot delete your own account"⟩, users)
    else
      match delete_user users user_id with
      | (true, users2) => (⟨200, .message "User deleted successfully"⟩, users2)
      | (false, _) => (⟨404, .err "User not found"⟩, users)

-- ===========================================================================
-- Concrete instances used by counterexamples and witnesses
-- ===========================================================================

/-- A sample stored user record. -/
def demoUser : User :=
  { id := "1", username := "alice", password_hash := "h", full_name := "A",
    role := "Admin", created_at := "2025-01-01T00:00:00Z" }

/-- A stand-in for the bcrypt hashing collaborator. -/
def demoHash (pw : String) : String := "bcrypt$" ++ pw

/-- A stand-in for jwt.decode that rejects every token. -/
def demoDecode : String → String → JwtResult := fun _ _ => .invalid

/-- A token payload naming the sample user, with the Admin role. -/
def demoAdminPayload : Payload := { user_id := "1", username := "alice", role := "Admin" }

/-- A two-page upstream: page 1 returns two tickets and announces a next
page, page 2 returns an empty body. -/
def demoHttp : List (String × String) → PageResp Nat := fun req =>
  match List.lookup "page" req with
  | some "1" => .ok [1, 2] true
  | some "2" => .ok [] true
  | _ => .exn

/-- The per-page data of demoHttp. -/
def demoPages : Nat → List Nat := fun p => if p = 1 then [1, 2] else []

/-- A ticket created at the end of 2024, with a parseable timestamp. -/
def t2024 : Ticket := { created_at := some "2024-12-31T23:59:59Z" }

/-- A ticket whose creation timestamp does not parse. -/
def tBad : Ticket := { created_at := some "garbage" }

/-- A ticket created in 2025. -/
def t2025 : Ticket := { created_at := some "2025-03-01T00:00:00Z" }

/-- A ticket carrying a priority. -/
def tP4 : Ticket := { priority := some 4 }

/-- A ticket with no priority field. -/
def tNoP : Ticket := { created_at := none, priority := none }

-- ===========================================================================
-- Theorems
-- ===========================================================================

/-- C3: get_custom_field_value returns the exact-key value when the requested
name is itself a key, otherwise the value of the first key extending the name
by an empty or purely numeric suffix, otherwise None; and on the two field
maps of the spec it returns PS5 and Xbox respectively. -/
theorem custom_field_lookup_spec :
    (∀ (cf : List (String × String)) (fp : String),
      get_custom_field_value cf fp =
        (List.lookup fp cf).orElse (fun _ =>
          (cf.find? (fun kv =>
            pyStartsWith kv.1 fp &&
              ((kv.1.drop fp.length).isEmpty || pyIsDigit (kv.1.drop fp.length)))).map
            Prod.snd))
    ∧ get_custom_field_value [("cf_platform627919", "PS5")] "cf_platform" = some "PS5"
    ∧ get_custom_field_value [("cf_platform", "Xbox"), ("cf_platformX", "bad")] "cf_platform"
        = some "Xbox" := by
  refine ⟨?_, by decide, by decide⟩
  intro cf fp
  cases cf with
  | nil => rfl
  | cons a as =>
    unfold get_custom_field_value
    cases h : List.lookup fp (a :: as) with
    | some v => simp [h, Option.orElse]
    | none => simp [h, Option.orElse]

/-- C4: for a non-empty response-time list the summary median is the middle
element of the sorted list when the length is odd and the mean of the two
middle elements when it is even; in particular 20 for [10, 20, 30] and 25 for
[10, 20, 30, 40]. -/
theorem summary_median_rule :
    (∀ l : List ℚ, l ≠ [] →
      (l.length % 2 = 1 →
        summary_median l = some ((l.insertionSort (· ≤ ·)).getD (l.length / 2) 0))
      ∧ (l.length % 2 = 0 →
        summary_median l =
          some (((l.insertionSort (· ≤ ·)).getD (l.length / 2 - 1) 0 +
                 (l.insertionSort (· ≤ ·)).getD (l.length / 2) 0) / 2)))
    ∧ summary_median [10, 20, 30] = some 20
    ∧ summary_median [10, 20, 30, 40] = some 25 := by
  refine ⟨?_, ?_, ?_⟩
  · intro l hl
    have hE : l.isEmpty = false := by
      cases l with
      | nil => exact absurd rfl hl
      | cons a as => rfl
    constructor
    · intro hodd
      simp only [summary_median, summary_response_stats, hE, Bool.false_eq_true, if_false,
        List.length_insertionSort]
      rw [if_pos (by omega)]
    · intro heven
      simp only [summary_median, summary_response_stats, hE, Bool.false_eq_true, if_false,
        List.length_insertionSort]
      rw [if_neg (by omega)]
  · simp [summary_median, summary_response_stats, List.insertionSort, List.orderedInsert]
    norm_num
  · simp [summary_median, summary_response_stats, List.insertionSort, List.orderedInsert]
    norm_num

/-- Witness for C4: the median rule applied to the concrete list
[10, 20, 30]. -/
theorem summary_median_rule_witness :
    ([10, 20, 30] : List ℚ) ≠ [] ∧
    summary_median [10, 20, 30] = some (([10, 20, 30].insertionSort (· ≤ ·)).getD 1 0) := by
  have h1 : ([10, 20, 30] : List ℚ) ≠ [] := by simp
  have h := (summary_median_rule.1 [10, 20, 30] h1).1 (by simp)
  exact ⟨h1, by simpa using h⟩

/-- C5 counterexample: with no signing secret configured, verify_token raises
the ValueError from get_jwt_secret to its caller instead of returning a
payload or None. -/
theorem verify_token_raises_on_missing_secret :
    verify_token demoDecode none "sometoken" = .error .valueError ∧
    verify_token demoDecode (some "") "sometoken" = .error .valueError := ⟨rfl, rfl⟩

/-- C5 amended: with a non-empty secret configured, verify_token returns the
decoded payload on success and None on expiry or invalidity, never raising;
with the secret absent or empty it raises ValueError. -/
theorem verify_token_spec (decode : String → String → JwtResult) (secret token : String)
    (hs : secret.isEmpty = false) :
    verify_token decode (some secret) token =
      .ok (match decode token secret with
           | .payload p => some p
           | .expired => none
           | .invalid => none)
    ∧ verify_token decode none token = .error .valueError
    ∧ verify_token decode (some "") token = .error .valueError := by
  refine ⟨?_, rfl, rfl⟩
  simp only [verify_token, get_jwt_secret, hs, Bool.false_eq_true, if_false]
  cases decode token secret <;> rfl

/-- Witness for C5: the amended rule applied to the rejecting decoder and the
concrete secret s. -/
theorem verify_token_spec_witness :
    verify_token demoDecode (some "s") "tok" = .ok none := by
  have h := (verify_token_spec demoDecode "s" "tok" (by decide)).1
  simpa [demoDecode] using h

/-- C1 counterexample: an Admin token deleting its own user id is rejected
with status 400, not 403 (the user record is indeed not removed). -/
theorem self_delete_status_not_403 :
    users_delete (some demoAdminPayload) "1" [demoUser] =
      (⟨400, .err "Cannot delete your own account"⟩, [demoUser])
    ∧ (400 : Nat) ≠ 403 := ⟨rfl, by decide⟩

/-- C1 amended: an authenticated Admin token whose user id equals the path id
is rejected with status 400 and an error body, and the user store is left
unchanged. -/
theorem self_delete_rejected_400 (payload : Payload) (user_id : String) (users : List User)
    (hrole : payload.role = "Admin") (hself : payload.user_id = user_id) :
    users_delete (some payload) user_id users =
      (⟨400, .err "Cannot delete your own account"⟩, users) := by
  simp [users_delete, hrole, hself]

/-- Witness for C1: the amended rule applied to the sample Admin payload and
store. -/
theorem self_delete_rejected_400_witness :
    users_delete (some demoAdminPayload) "1" [demoUser] =
      (⟨400, .err "Cannot delete your own account"⟩, [demoUser]) :=
  self_delete_rejected_400 demoAdminPayload "1" [demoUser] rfl rfl

/-- C10: an authenticated change-password request whose new password is
shorter than 8 characters is answered with status 400 and an error body, and
the user store is not written. -/
theorem change_password_short_rejected (verifyPw : String → String → Bool)
    (hashPw : String → String) (payload : Payload) (b : ChangePwBody)
    (users : List User) (np : String)
    (hnp : b.new_password = some np) (hshort : np.length < 8) :
    (auth_change_password verifyPw hashPw (some payload) (some b) users).1.status = 400
    ∧ (∃ m, (auth_change_password verifyPw hashPw (some payload) (some b) users).1.body
        = .err m)
    ∧ (auth_change_password verifyPw hashPw (some payload) (some b) users).2 = users := by
  cases hC : (!pyTruthyStr b.current_password || !pyTruthyStr b.new_password) with
  | true =>
    simp [auth_change_password, hC]
  | false =>
    have hlen : (b.new_password.getD "").length < 8 := by
      rw [hnp]; exact hshort
    simp [auth_change_password, hC, hlen]

/-- Witness for C10: a five-character new password against the sample user
store. -/
theorem change_password_short_rejected_witness :
    (auth_change_password (fun _ _ => true) demoHash (some demoAdminPayload)
        (some { current_password := some "oldpw", new_password := some "short" })
        [demoUser]).1.status = 400
    ∧ (∃ m, (auth_change_password (fun _ _ => true) demoHash (some demoAdminPayload)
        (some { current_password := some "oldpw", new_password := some "short" })
        [demoUser]).1.body = .err m)
    ∧ (auth_change_password (fun _ _ => true) demoHash (some demoAdminPayload)
        (some { current_password := some "oldpw", new_password := some "short" })
        [demoUser]).2 = [demoUser] :=
  change_password_short_rejected (fun _ _ => true) demoHash demoAdminPayload
    { current_password := some "oldpw", new_password := some "short" }
    [demoUser] "short" rfl (by decide)

/-- Reduction of an Except bind on a success value. -/
theorem except_bind_ok (a : α) (f : α → Except PyErr β) :
    (Except.ok a >>= f : Except PyErr β) = f a := rfl

/-- Reduction of an Except bind on a raised error. -/
theorem except_bind_error (e : PyErr) (f : α → Except PyErr β) :
    (Except.error e >>= f : Except PyErr β) = Except.error e := rfl

/-- Reduction of an Except map on a success value. -/
theorem except_map_ok (f : α → β) (a : α) :
    (Except.map f (Except.ok a) : Except PyErr β) = Except.ok (f a) := rfl

/-- Reduction of an Except map on a raised error. -/
theorem except_map_error (f : α → β) (e : PyErr) :
    (Except.map f (Except.error e) : Except PyErr β) = Except.error e := rfl

/-- A comprehension whose condition never raises on the given elements
succeeds. -/
theorem pyFilter_ok_of_forall (cond : α → Except PyErr Bool) :
    ∀ xs : List α, (∀ x ∈ xs, ∃ b, cond x = .ok b) → ∃ l, pyFilter cond xs = .ok l := by
  intro xs h
  induction xs with
  | nil => exact ⟨[], rfl⟩
  | cons x xs ih =>
    obtain ⟨b, hb⟩ := h x (by simp)
    obtain ⟨l, hl⟩ := ih (fun y hy => h y (by simp [hy]))
    exact ⟨if b then x :: l else l, by simp [pyFilter, hb, hl, except_bind_ok]⟩

/-- Every element of a successful comprehension satisfies the condition. -/
theorem pyFilter_mem_true (cond : α → Except PyErr Bool) :
    ∀ (xs l : List α), pyFilter cond xs = .ok l → ∀ x ∈ l, cond x = .ok true := by
  intro xs
  induction xs with
  | nil =>
    intro l hl x hx
    simp only [pyFilter] at hl
    cases hl
    simp at hx
  | cons y ys ih =>
    intro l hl x hx
    cases hb : cond y with
    | error e => simp [pyFilter, hb, except_bind_error] at hl
    | ok b =>
      cases hr : pyFilter cond ys with
      | error e => simp [pyFilter, hb, hr, except_bind_ok, except_bind_error] at hl
      | ok rest =>
        simp only [pyFilter, hb, hr, except_bind_ok, Except.ok.injEq] at hl
        cases hl
        cases b with
        | true =>
          rcases (by simpa using hx : x = y ∨ x ∈ rest) with rfl | hx2
          · exact hb
          · exact ih rest hr x hx2
        | false =>
          exact ih rest hr x (by simpa using hx)

/-- C6 counterexample: a collection holding a parseable 2024 ticket next to a
ticket with an unparseable timestamp makes the comprehension raise, so the
try/except skips the whole year filter and the 2024 ticket is retained. -/
theorem year_filter_2024_ticket_retained :
    created_year "2024-12-31T23:59:59Z" = some 2024
    ∧ (2024 : Nat) < 2025
    ∧ apply_year_filter false [t2024, tBad] = [t2024, tBad]
    ∧ t2024 ∈ apply_year_filter false [t2024, tBad] := by
  refine ⟨by decide, by decide, by decide, by decide⟩

/-- C6 amended: provided every present, non-empty creation timestamp in the
collection parses, a ticket whose creation year is before 2025 is excluded
when include_2024 is false, and the filter is the identity when include_2024
is true. -/
theorem year_filter_spec (ts : List Ticket)
    (hclean : ∀ t ∈ ts, ∀ s, t.created_at = some s → s.isEmpty = false →
      (created_year s).isSome) :
    (∀ t ∈ ts, ∀ s y, t.created_at = some s → created_year s = some y → y < 2025 →
      t ∉ apply_year_filter false ts)
    ∧ apply_year_filter true ts = ts := by
  refine ⟨?_, rfl⟩
  intro t ht s y hcs hcy hy hmem
  have hok : ∀ x ∈ ts, ∃ b, year_keep x = .ok b := by
    intro x hx
    cases hc : x.created_at with
    | none => exact ⟨false, by simp [year_keep, hc]⟩
    | some sx =>
      cases hE : sx.isEmpty with
      | true => exact ⟨false, by simp [year_keep, hc, hE]⟩
      | false =>
        obtain ⟨yx, hyx⟩ := Option.isSome_iff_exists.mp (hclean x hx sx hc hE)
        exact ⟨decide (yx ≥ 2025), by simp [year_keep, hc, hE, hyx]⟩
  obtain ⟨l, hl⟩ := pyFilter_ok_of_forall year_keep ts hok
  rw [show apply_year_filter false ts = l by simp [apply_year_filter, hl]] at hmem
  have hkeep := pyFilter_mem_true year_keep ts l hl t hmem
  cases hE : s.isEmpty with
  | true =>
    rw [show year_keep t = .ok false by simp [year_keep, hcs, hE]] at hkeep
    simp at hkeep
  | false =>
    rw [show year_keep t = .ok (decide (y ≥ 2025)) by simp [year_keep, hcs, hE, hcy]] at hkeep
    simp at hkeep
    omega

/-- Witness for C6: the amended rule applied to a store of one 2024 and one
2025 ticket, both parseable. -/
theorem year_filter_spec_witness :
    t2024 ∉ apply_year_filter false [t2024, t2025]
    ∧ apply_year_filter true [t2024, t2025] = [t2024, t2025] := by
  have hclean : ∀ t ∈ [t2024, t2025], ∀ s, t.created_at = some s → s.isEmpty = false →
      (created_year s).isSome := by
    intro t ht s hs hne
    rcases (by simpa using ht : t = t2024 ∨ t = t2025) with rfl | rfl
    · cases show s = "2024-12-31T23:59:59Z" by
        simpa [t2024] using hs.symm
      decide
    · cases show s = "2025-03-01T00:00:00Z" by
        simpa [t2025] using hs.symm
      decide
  have h := year_filter_spec [t2024, t2025] hclean
  exact ⟨h.1 t2024 (by simp) "2024-12-31T23:59:59Z" 2024 rfl (by decide) (by decide), h.2⟩

/-- C7 counterexample: the high-priority bucket of the summary raises
TypeError on a ticket with no priority field, and the handler's except clause
(which matches only request exceptions) lets it propagate. -/
theorem priority_bucket_raises_without_priority :
    high_priority_count [tNoP] = .error .typeError
    ∧ summary_handle (high_priority_count [tNoP]) = .error .typeError := ⟨rfl, rfl⟩

/-- The high-priority bucket either succeeds or raises exactly TypeError, the
latter exactly when some ticket lacks a priority. -/
theorem high_priority_count_cases :
    ∀ ts : List Ticket,
      (∃ n, high_priority_count ts = .ok n ∧ ∀ t ∈ ts, t.priority.isSome)
      ∨ (high_priority_count ts = .error .typeError ∧ ∃ t ∈ ts, t.priority = none) := by
  intro ts
  induction ts with
  | nil => exact .inl ⟨0, rfl, by simp⟩
  | cons t ts ih =>
    cases hp : t.priority with
    | none =>
      refine .inr ⟨?_, t, by simp, hp⟩
      simp [high_priority_count, pyFilter, pyGeInt, hp, except_bind_error, except_map_error]
    | some v =>
      rcases ih with ⟨n, hn, hall⟩ | ⟨herr, u, hu, hup⟩
      · obtain ⟨l, hfr⟩ : ∃ l, pyFilter (fun t => pyGeInt t.priority 3) ts = .ok l := by
          revert hn
          unfold high_priority_count
          cases hfr : pyFilter (fun t => pyGeInt t.priority 3) ts with
          | error e => intro hn; rw [except_map_error] at hn; cases hn
          | ok l => intro _; exact ⟨l, rfl⟩
        have hhead : pyGeInt t.priority 3 = .ok (decide (v ≥ 3)) := by rw [hp]; rfl
        have hstep : pyFilter (fun t => pyGeInt t.priority 3) (t :: ts) =
            (do let b ← pyGeInt t.priority 3
                let rest ← pyFilter (fun t => pyGeInt t.priority 3) ts
                pure (if b then t :: rest else rest)) := rfl
        refine .inl ⟨(if decide (v ≥ 3) = true then t :: l else l).length, ?_, ?_⟩
        · unfold high_priority_count
          rw [hstep, hhead, except_bind_ok, hfr, except_bind_ok]
          rfl
        · intro x hx
          rcases (by simpa using hx : x = t ∨ x ∈ ts) with rfl | hx2
          · simp [hp]
          · exact hall x hx2
      · refine .inr ⟨?_, u, by simp [hu], hup⟩
        have hfr : pyFilter (fun t => pyGeInt t.priority 3) ts = .error .typeError := by
          revert herr
          unfold high_priority_count
          cases hfr : pyFilter (fun t => pyGeInt t.priority 3) ts with
          | error e =>
            intro herr
            rw [except_map_error] at herr
            cases herr
            rfl
          | ok l => intro herr; rw [except_map_ok] at herr; cases herr
        have hhead : pyGeInt t.priority 3 = .ok (decide (v ≥ 3)) := by rw [hp]; rfl
        have hstep : pyFilter (fun t => pyGeInt t.priority 3) (t :: ts) =
            (do let b ← pyGeInt t.priority 3
                let rest ← pyFilter (fun t => pyGeInt t.priority 3) ts
                pure (if b then t :: rest else rest)) := rfl
        unfold high_priority_count
        rw [hstep, hhead, except_bind_ok, hfr, except_bind_error]
        rfl

/-- C7 amended: the priority-bucket computation of the summary endpoint is
total exactly over ticket collections in which every ticket carries a
priority; on any collection containing a ticket without one it raises
TypeError, which the handler's except clause does not catch, so it
propagates out of the summary endpoint. -/
theorem priority_bucket_totality (ts : List Ticket) :
    ((high_priority_count ts).isOk = true ↔ ∀ t ∈ ts, t.priority.isSome)
    ∧ ((∃ t ∈ ts, t.priority = none) →
        summary_handle (high_priority_count ts) = .error .typeError) := by
  rcases high_priority_count_cases ts with ⟨n, hn, hall⟩ | ⟨herr, u, hu, hup⟩
  · constructor
    · exact ⟨fun _ => hall, fun _ => by simp [hn, Except.isOk, Except.toBool]⟩
    · rintro ⟨t, ht, hpn⟩
      have := hall t ht
      rw [hpn] at this
      cases this
  · constructor
    · constructor
      · intro hok
        rw [herr] at hok
        cases hok
      · intro hall
        have := hall u hu
        rw [hup] at this
        cases this
    · intro _
      rw [herr]
      rfl

/-- Witness for C7: the amended rule applied to a one-ticket collection with
a priority and to one without. -/
theorem priority_bucket_totality_witness :
    (high_priority_count [tP4]).isOk = true
    ∧ summary_handle (high_priority_count [tNoP]) = .error .typeError := by
  constructor
  · exact (priority_bucket_totality [tP4]).1.mpr (by decide)
  · exact (priority_bucket_totality [tNoP]).2 ⟨tNoP, by simp, rfl⟩

/-- The password_hash key is absent from the five-field projection. -/
theorem lookup_user_created_dict (u : User) :
    List.lookup "password_hash" (user_created_dict u) = none := rfl

/-- The password_hash key is absent from the seven-field projection. -/
theorem lookup_user_public_dict (u : User) :
    List.lookup "password_hash" (user_public_dict u) = none := rfl

/-- Field updates never touch the id. -/
theorem apply_user_updates_id (hashPw : String → String) (u0 : User) (upd : UserUpdates) :
    (apply_user_updates hashPw u0 upd).id = u0.id := by
  rcases upd with ⟨un, fn, r, pw, mcp⟩
  cases un <;> cases fn <;> cases r <;> cases pw <;> cases mcp <;> rfl

/-- A password update with no explicit must_change_password entry leaves the
flag cleared. -/
theorem apply_user_updates_flag (hashPw : String → String) (u0 : User) (upd : UserUpdates)
    (hpw : upd.password.isSome = true) (hnom : upd.must_change_password = none) :
    (apply_user_updates hashPw u0 upd).must_change_password = false := by
  rcases upd with ⟨un, fn, r, pw, mcp⟩
  simp only at hpw hnom
  subst hnom
  cases pw with
  | none => cases hpw
  | some p => cases un <;> cases fn <;> cases r <;> rfl

/-- Shape of a successful update_user run: the record at the found index is
replaced by its updated version and the projection is built from that
updated record. -/
theorem update_user_ok_shape (hashPw : String → String) (users : List User)
    (user_id : String) (upd : UserUpdates) (users2 : List User) (d : List (String × JVal))
    (h : update_user hashPw users user_id upd = .ok (users2, some d)) :
    ∃ i, users.findIdx? (fun u => u.id == user_id) = some i
      ∧ users2 = users.set i (apply_user_updates hashPw (users.getD i default) upd)
      ∧ d = user_created_dict (apply_user_updates hashPw (users.getD i default) upd) := by
  unfold update_user at h
  cases hidx : users.findIdx? (fun u => u.id == user_id) with
  | none => simp only [hidx] at h; simp at h
  | some i =>
    simp only [hidx] at h
    split at h
    · cases h
    · split at h
      · cases h
      · simp only [Except.ok.injEq, Prod.mk.injEq, Option.some.injEq] at h
        exact ⟨i, rfl, h.1.symm, h.2.symm⟩

/-- The projection returned by a successful create_user is the five-field
dictionary of some record. -/
theorem create_user_ok_shape (hashPw : String → String) (now : String) (users : List User)
    (username password full_name role : String) (users2 : List User)
    (d : List (String × JVal))
    (h : create_user hashPw now users username password full_name role = .ok (users2, d)) :
    ∃ u, d = user_created_dict u := by
  unfold create_user at h
  split at h
  · cases h
  · split at h
    · cases h
    · simp only [Except.ok.injEq, Prod.mk.injEq] at h
      exact ⟨_, h.2.symm⟩

/-- C8 counterexample: the username and id lookups return the stored record
itself, password hash included. -/
theorem lookup_returns_password_hash :
    (get_user_by_username [demoUser] "alice").map User.password_hash = some "h"
    ∧ (get_user_by_id [demoUser] "1").map User.password_hash = some "h" := ⟨rfl, rfl⟩

/-- C8 amended: the projections returned by listAll, create and update never
contain a password_hash key, but findByUsername and findById return the full
stored record, hash included. -/
theorem user_projection_spec :
    (∀ users : List User, ∀ d ∈ get_all_users users, List.lookup "password_hash" d = none)
    ∧ (∀ (hashPw : String → String) (now : String) (users : List User)
        (username password full_name role : String) users2 d,
        create_user hashPw now users username password full_name role = .ok (users2, d) →
        List.lookup "password_hash" d = none)
    ∧ (∀ (hashPw : String → String) (users : List User) (user_id : String)
        (upd : UserUpdates) users2 d,
        update_user hashPw users user_id upd = .ok (users2, some d) →
        List.lookup "password_hash" d = none)
    ∧ (∀ (users : List User) (username : String) (u : User),
        get_user_by_username users username = some u → u ∈ users)
    ∧ (∀ (users : List User) (user_id : String) (u : User),
        get_user_by_id users user_id = some u → u ∈ users) := by
  refine ⟨?_, ?_, ?_, ?_, ?_⟩
  · intro users d hd
    obtain ⟨u, _, rfl⟩ := List.mem_map.mp hd
    exact lookup_user_public_dict u
  · intro hashPw now users username password full_name role users2 d h
    obtain ⟨u, rfl⟩ := create_user_ok_shape hashPw now users username password
      full_name role users2 d h
    exact lookup_user_created_dict u
  · intro hashPw users user_id upd users2 d h
    obtain ⟨i, _, _, rfl⟩ := update_user_ok_shape hashPw users user_id upd users2 d h
    exact lookup_user_created_dict _
  · intro users username u h
    exact List.mem_of_find?_eq_some h
  · intro users user_id u h
    exact List.mem_of_find?_eq_some h

/-- Witness for C8: the amended rule applied to the one-user sample store. -/
theorem user_projection_spec_witness :
    List.lookup "password_hash" (user_public_dict demoUser) = none
    ∧ demoUser ∈ [demoUser] := by
  refine ⟨user_projection_spec.1 [demoUser] (user_public_dict demoUser) (by simp [get_all_users]),
    user_projection_spec.2.2.2.1 [demoUser] "alice" demoUser rfl⟩

/-- The sample user after a password update whose request also sets the
must_change_password flag back to true. -/
def demoUserOverridden : User :=
  { demoUser with password_hash := "bcrypt$newpw", must_change_password := true }

/-- C9 counterexample: an update carrying both a password entry and an
explicit must_change_password entry of true succeeds but leaves the stored
flag set, because the explicit entry is applied after the clearing. -/
theorem password_update_flag_override :
    update_user demoHash [demoUser] "1"
        { password := some "newpw", must_change_password := some true } =
      .ok ([demoUserOverridden], some (user_created_dict demoUserOverridden))
    ∧ demoUserOverridden.must_change_password = true := ⟨rfl, rfl⟩

/-- C9 amended: an update whose field map contains a password entry and no
must_change_password entry leaves the stored record with the flag cleared
whenever update_user succeeds. -/
theorem password_update_clears_flag (hashPw : String → String) (users : List User)
    (user_id : String) (upd : UserUpdates) (users2 : List User) (d : List (String × JVal))
    (hpw : upd.password.isSome = true) (hnom : upd.must_change_password = none)
    (h : update_user hashPw users user_id upd = .ok (users2, some d)) :
    ∃ u ∈ users2, u.id = user_id ∧ u.must_change_password = false := by
  obtain ⟨i, hidx, husers2, _⟩ := update_user_ok_shape hashPw users user_id upd users2 d h
  obtain ⟨hlt, hpred, _⟩ := List.findIdx?_eq_some_iff_getElem.mp hidx
  have hgetD : users.getD i default = users[i] := by
    simp [List.getD_eq_getElem?_getD, List.getElem?_eq_getElem hlt]
  refine ⟨apply_user_updates hashPw (users.getD i default) upd, ?_, ?_, ?_⟩
  · rw [husers2]
    have hlt2 : i < (users.set i
        (apply_user_updates hashPw (users.getD i default) upd)).length := by
      simpa using hlt
    have hmem := List.getElem_mem hlt2
    rw [List.getElem_set_self hlt2] at hmem
    exact hmem
  · rw [apply_user_updates_id, hgetD]
    exact eq_of_beq hpred
  · exact apply_user_updates_flag hashPw _ upd hpw hnom

/-- The sample user after a plain password update. -/
def demoUserCleared : User :=
  { demoUser with password_hash := "bcrypt$newpw", must_change_password := false }

/-- Witness for C9: the amended rule applied to a concrete password-only
update of the sample store. -/
theorem password_update_clears_flag_witness :
    ∃ u ∈ [demoUserCleared], u.id = "1" ∧ u.must_change_password = false :=
  password_update_clears_flag demoHash [demoUser] "1" { password := some "newpw" }
    [demoUserCleared] (user_created_dict demoUserCleared) rfl rfl rfl

/-- Lookup distributes over list append, preferring the left part. -/
theorem lookup_append (l1 l2 : List (String × String)) (k : String) :
    List.lookup k (l1 ++ l2) = (List.lookup k l1).orElse (fun _ => List.lookup k l2) := by
  induction l1 with
  | nil => rfl
  | cons a as ih =>
    cases hk : (k == a.1) with
    | true => simp [List.lookup, hk, Option.orElse]
    | false => simp [List.lookup, hk, Option.orElse, ih]

/-- Dropping the entries of a key by filtering removes it from lookup. -/
theorem lookup_filter_self (l : List (String × String)) (k : String) :
    List.lookup k (l.filter (fun kv => kv.1 ≠ k)) = none := by
  induction l with
  | nil => rfl
  | cons a as ih =>
    rcases a with ⟨a1, a2⟩
    by_cases hak : a1 = k
    · have h1 : (decide (((a1, a2) : String × String).1 ≠ k)) = false := by simp [hak]
      rw [List.filter_cons, h1]
      simpa using ih
    · have h1 : (decide (((a1, a2) : String × String).1 ≠ k)) = true := by simp [hak]
      have hk : (k == a1) = false := beq_eq_false_iff_ne.mpr (Ne.symm hak)
      rw [List.filter_cons, h1]
      simpa [List.lookup, hk] using ih

/-- Filtering out a different key leaves a lookup unchanged. -/
theorem lookup_filter_of_ne (l : List (String × String)) (k k2 : String) (hne : k ≠ k2) :
    List.lookup k (l.filter (fun kv => kv.1 ≠ k2)) = List.lookup k l := by
  induction l with
  | nil => rfl
  | cons a as ih =>
    rcases a with ⟨a1, a2⟩
    by_cases ha2 : a1 = k2
    · have h1 : (decide (((a1, a2) : String × String).1 ≠ k2)) = false := by simp [ha2]
      have hk : (k == a1) = false := by
        refine beq_eq_false_iff_ne.mpr ?_
        rw [ha2]
        exact hne
      rw [List.filter_cons, h1]
      simp only [Bool.false_eq_true, if_false]
      rw [ih]
      simp [List.lookup, hk]
    · have h1 : (decide (((a1, a2) : String × String).1 ≠ k2)) = true := by simp [ha2]
      rw [List.filter_cons, h1]
      simp only [if_true]
      cases hk : (k == a1) with
      | true => simp [List.lookup, hk]
      | false =>
        simp only [List.lookup, hk]
        exact ih

/-- A dict update binds its key. -/
theorem lookup_dictSet_self (l : List (String × String)) (k v : String) :
    List.lookup k (dictSet l k v) = some v := by
  unfold dictSet
  rw [lookup_append, lookup_filter_self]
  simp [List.lookup, Option.orElse]

/-- A dict update leaves other keys unchanged. -/
theorem lookup_dictSet_ne (l : List (String × String)) (k k2 v : String) (hne : k ≠ k2) :
    List.lookup k (dictSet l k2 v) = List.lookup k l := by
  unfold dictSet
  rw [lookup_append, lookup_filter_of_ne l k k2 hne]
  cases hl : List.lookup k l with
  | some w => simp [Option.orElse]
  | none =>
    have hk : (k == k2) = false := beq_eq_false_iff_ne.mpr hne
    simp [Option.orElse, List.lookup, hk]

/-- Every page request carries per_page 100 and its page number. -/
theorem page_params_keys (qs : List (String × String)) (p : Nat) :
    List.lookup "per_page" (page_params qs p) = some "100"
    ∧ List.lookup "page" (page_params qs p) = some (toString p) := by
  constructor
  · exact lookup_dictSet_self _ _ _
  · unfold page_params
    rw [lookup_dictSet_ne _ _ _ _ (by decide)]
    exact lookup_dictSet_self _ _ _

/-- Running the page loop across a block of continuing pages accumulates
their data in order and records their requests in the trace. -/
theorem fetchPagesAux_run (http : List (String × String) → PageResp α)
    (params : List (String × String)) (max_pages : Option Nat) (pages : Nat → List α) :
    ∀ (len start fuel : Nat) (acc : List α),
      (∀ p, start ≤ p → p < start + len →
        capReached max_pages p = false
        ∧ http (page_params params p) = .ok (pages p) true
        ∧ pages p ≠ []) →
      fetchPagesAux http params max_pages (len + fuel) start acc =
        ((fetchPagesAux http params max_pages fuel (start + len)
            (acc ++ ((List.range' start len).map pages).flatten)).1,
         (List.range' start len).map (page_params params) ++
           (fetchPagesAux http params max_pages fuel (start + len)
             (acc ++ ((List.range' start len).map pages).flatten)).2) := by
  intro len
  induction len with
  | zero =>
    intro start fuel acc h
    simp
  | succ n ih =>
    intro start fuel acc h
    obtain ⟨hcap, hhttp, hne⟩ := h start (Nat.le_refl _) (by omega)
    have hE : (pages start).isEmpty = false := by
      cases hps : pages start with
      | nil => exact absurd hps hne
      | cons a as => rfl
    have harith : (n + 1) + fuel = (n + fuel) + 1 := by omega
    rw [harith]
    have hunfold : fetchPagesAux http params max_pages ((n + fuel) + 1) start acc =
        (let rest := fetchPagesAux http params max_pages (n + fuel) (start + 1)
            (acc ++ pages start)
         (rest.1, page_params params start :: rest.2)) := by
      simp [fetchPagesAux, hcap, hhttp, hE]
    rw [hunfold]
    have hshift : ∀ p, start + 1 ≤ p → p < (start + 1) + n →
        capReached max_pages p = false
        ∧ http (page_params params p) = .ok (pages p) true
        ∧ pages p ≠ [] := by
      intro p h1 h2
      exact h p (by omega) (by omega)
    have hrec := ih (start + 1) fuel (acc ++ pages start) hshift
    rw [hrec]
    have hrange : List.range' start (n + 1) = start :: List.range' (start + 1) n :=
      List.range'_succ start n 1
    have hidx : (start + 1) + n = start + (n + 1) := by omega
    simp [hrange, hidx, List.append_assoc]

/-- C2: the fetcher requests pages 1, 2, ... with per_page 100, stops at the
first page hitting the cap, an empty body, or a missing next relation, and on
a raised request error at any page returns exactly the tickets accumulated
from the earlier pages.  The page sequence is arbitrary: pages below n
continue (non-empty data with a next relation, below the cap), and the four
cases settle every stop cause at page n. -/
theorem fetch_pagination_spec (http : List (String × String) → PageResp α)
    (params : List (String × String)) (max_pages : Option Nat) (pages : Nat → List α)
    (n fuel : Nat) (hn : 1 ≤ n) (hfuel : n ≤ fuel)
    (hcont : ∀ p, 1 ≤ p → p < n →
      capReached max_pages p = false
      ∧ http (page_params params p) = .ok (pages p) true
      ∧ pages p ≠ []) :
    (∀ (qs : List (String × String)) (p : Nat),
      List.lookup "per_page" (page_params qs p) = some "100"
      ∧ List.lookup "page" (page_params qs p) = some (toString p))
    ∧ (capReached max_pages n = true →
        fetch_all_pages_from_freshdesk http params max_pages fuel =
          ((List.range' 1 (n - 1)).map pages).flatten
        ∧ (fetchPagesAux http params max_pages fuel 1 []).2 =
          (List.range' 1 (n - 1)).map (page_params params))
    ∧ (capReached max_pages n = false → http (page_params params n) = .exn →
        fetch_all_pages_from_freshdesk http params max_pages fuel =
          ((List.range' 1 (n - 1)).map pages).flatten
        ∧ (fetchPagesAux http params max_pages fuel 1 []).2 =
          (List.range' 1 n).map (page_params params))
    ∧ (∀ b, capReached max_pages n = false → http (page_params params n) = .ok [] b →
        fetch_all_pages_from_freshdesk http params max_pages fuel =
          ((List.range' 1 (n - 1)).map pages).flatten
        ∧ (fetchPagesAux http params max_pages fuel 1 []).2 =
          (List.range' 1 n).map (page_params params))
    ∧ (∀ d, capReached max_pages n = false → http (page_params params n) = .ok d false →
        d ≠ [] →
        fetch_all_pages_from_freshdesk http params max_pages fuel =
          ((List.range' 1 (n - 1)).map pages).flatten ++ d
        ∧ (fetchPagesAux http params max_pages fuel 1 []).2 =
          (List.range' 1 n).map (page_params params)) := by
  obtain ⟨fuel0, hfuel0⟩ : ∃ f0, fuel = (n - 1) + (f0 + 1) := ⟨fuel - n, by omega⟩
  have hcont2 : ∀ p, 1 ≤ p → p < 1 + (n - 1) →
      capReached max_pages p = false
      ∧ http (page_params params p) = .ok (pages p) true
      ∧ pages p ≠ [] := fun p h1 h2 => hcont p h1 (by omega)
  have hrun := fetchPagesAux_run http params max_pages pages (n - 1) 1 (fuel0 + 1) [] hcont2
  rw [← hfuel0, show 1 + (n - 1) = n from by omega, List.nil_append] at hrun
  have hsplit : List.range' 1 n = List.range' 1 (n - 1) ++ [n] := by
    conv_lhs => rw [show n = (n - 1) + 1 from by omega]
    rw [List.range'_concat]
    have : 1 + 1 * (n - 1) = n := by omega
    rw [this]
  refine ⟨page_params_keys, ?_, ?_, ?_, ?_⟩
  · intro hcap
    have hstop : fetchPagesAux http params max_pages (fuel0 + 1) n
        ((List.range' 1 (n - 1)).map pages).flatten =
        (((List.range' 1 (n - 1)).map pages).flatten, []) := by
      simp [fetchPagesAux, hcap]
    constructor
    · show (fetchPagesAux http params max_pages fuel 1 []).1 = _
      rw [hrun, hstop]
    · rw [hrun, hstop]
      simp
  · intro hcap hexn
    have hstop : fetchPagesAux http params max_pages (fuel0 + 1) n
        ((List.range' 1 (n - 1)).map pages).flatten =
        (((List.range' 1 (n - 1)).map pages).flatten, [page_params params n]) := by
      simp [fetchPagesAux, hcap, hexn]
    constructor
    · show (fetchPagesAux http params max_pages fuel 1 []).1 = _
      rw [hrun, hstop]
    · rw [hrun, hstop, hsplit, List.map_append]
      simp
  · intro b hcap hok
    have hstop : fetchPagesAux http params max_pages (fuel0 + 1) n
        ((List.range' 1 (n - 1)).map pages).flatten =
        (((List.range' 1 (n - 1)).map pages).flatten, [page_params params n]) := by
      simp [fetchPagesAux, hcap, hok]
    constructor
    · show (fetchPagesAux http params max_pages fuel 1 []).1 = _
      rw [hrun, hstop]
    · rw [hrun, hstop, hsplit, List.map_append]
      simp
  · intro d hcap hok hd
    have hE : d.isEmpty = false := by
      cases hdd : d with
      | nil => exact absurd hdd hd
      | cons a as => rfl
    have hstop : fetchPagesAux http params max_pages (fuel0 + 1) n
        ((List.range' 1 (n - 1)).map pages).flatten =
        (((List.range' 1 (n - 1)).map pages).flatten ++ d, [page_params params n]) := by
      simp [fetchPagesAux, hcap, hok, hE]
    constructor
    · show (fetchPagesAux http params max_pages fuel 1 []).1 = _
      rw [hrun, hstop]
    · rw [hrun, hstop, hsplit, List.map_append]
      simp

/-- Witness for C2: the two-page upstream of demoHttp, whose second page is
empty, yields the tickets of page 1 and a trace of exactly two requests. -/
theorem fetch_pagination_spec_witness :
    fetch_all_pages_from_freshdesk demoHttp [] none 5 = [1, 2]
    ∧ (fetchPagesAux demoHttp [] none 5 1 []).2 = [page_params [] 1, page_params [] 2] := by
  have hcont : ∀ p, 1 ≤ p → p < 2 →
      capReached none p = false
      ∧ demoHttp (page_params [] p) = .ok (demoPages p) true
      ∧ demoPages p ≠ [] := by
    intro p h1 h2
    have hp : p = 1 := by omega
    subst hp
    exact ⟨rfl, rfl, by decide⟩
  have h := (fetch_pagination_spec demoHttp [] none demoPages 2 5 (by omega) (by omega)
    hcont).2.2.2.1 true rfl rfl
  refine ⟨?_, ?_⟩
  · rw [h.1]
    decide
  · rw [h.2]
    rfl

end ArmsDashboard
